import Mathlib

/- Shallow embedding of the financial metrics and projection engine of
   `FinanzasPro.jsx` (personal-finance dashboard).  JavaScript numbers are
   modelled as exact rationals; JavaScript's `Math.round` and
   `Number.prototype.toFixed(1)` are modelled after their ECMAScript
   definitions (round half toward positive infinity, resp. nearest with
   ties to the larger candidate).  The ambient clock read by
   `calculateMetrics` via `new Date()` is made an explicit `now` argument. -/

namespace FinanzasPro

inductive TxType where
  | Ingreso
  | Egreso
  deriving DecidableEq, Repr

/-- The `getFullYear`/`getMonth` view of a date: `month` is 0–11 exactly as
returned by JavaScript's `Date.prototype.getMonth`. -/
structure DateYM where
  year : Int
  month : Nat
  deriving DecidableEq, Repr

/-- A transaction record.  `deleted` is the soft-delete flag set by
`handleDelete` (line 586); the remaining fields are the ones the metrics
core reads. -/
structure Tx where
  type : TxType
  amount : ℚ
  category : String
  date : DateYM
  deleted : Bool := false
  deriving DecidableEq, Repr

/-- The financial-health profile document. -/
structure Health where
  investmentCapital : ℚ
  totalDebt : ℚ
  emergencyFund : ℚ
  deriving DecidableEq, Repr

inductive RiskProfile where
  | Conservador
  | Moderado
  | Agresivo
  deriving DecidableEq, Repr

/-- The portfolio profile document; `riskProfile` is `none` when the field is
missing/empty (JavaScript falsy). -/
structure Portfolio where
  riskProfile : Option RiskProfile
  deriving DecidableEq, Repr

/-- JavaScript `Math.round`: round half toward positive infinity. -/
def jsRound (q : ℚ) : ℤ := ⌊q + 1 / 2⌋

/-- JavaScript `Number.prototype.toFixed(1)` (ECMAScript: the integer `n`
with `n / 10` closest to the value, the larger `n` on ties — that is
`⌊10·q + 1/2⌋` tenths).  The negative-zero display `"-0.0"` of JavaScript is
not modelled; no claim evaluates `toFixed` at a negative argument. -/
def toFixed1 (q : ℚ) : String :=
  let n : ℤ := ⌊q * 10 + 1 / 2⌋
  (if n < 0 then "-" else "") ++
    toString (n.natAbs / 10) ++ "." ++ toString (n.natAbs % 10)

/-- JavaScript `String.prototype.split` with a single-character separator
(the source splits on `'-'` and, in the chart comparator, on `' '`). -/
def splitChars (sep : Char) : List Char → List (List Char)
  | [] => [[]]
  | c :: cs =>
    if c = sep then [] :: splitChars sep cs
    else
      match splitChars sep cs with
      | [] => [[c]]
      | p :: ps => (c :: p) :: ps

/-- JavaScript `String.prototype.replace` with a single-character string
pattern: removes the first occurrence only. -/
def removeFirst (target : Char) : List Char → List Char
  | [] => []
  | c :: cs => if c = target then cs else c :: removeFirst target cs

def isDigitCh (c : Char) : Bool := '0' ≤ c && c ≤ '9'

def digitsVal (acc : Nat) : List Char → Nat
  | [] => acc
  | c :: cs => digitsVal (10 * acc + (c.toNat - '0'.toNat)) cs

/-- JavaScript `parseFloat` restricted to the strings this source feeds it
(optional leading spaces followed by a digit run, e.g. `"8 "`): skip leading
whitespace and read the leading run of digits.  A digit-free string (which
would be `NaN` in JavaScript) only arises in the chart comparator, where the
source itself coerces it with `|| 0`. -/
def parseLeadingNat (cs : List Char) : Nat :=
  digitsVal 0 ((cs.dropWhile (fun c => c = ' ')).takeWhile isDigitCh)

/-- The `rendimiento_esperado` strings of the static `RISK_PROFILES` table
(lines 33–58).  The `descripcion` and `allocation` fields are presentational
and unread by the metrics core. -/
def rendimientoEsperado : RiskProfile → String
  | .Conservador => "5% - 8%"
  | .Moderado => "8% - 12%"
  | .Agresivo => "12% - 18%"

/-- Line 119: `portfolioData?.riskProfile ?
parseFloat(RISK_PROFILES[...].rendimiento_esperado.split('-')[0]
.replace('%', '')) / 100 : 0.05`.  The `replace` removes the single `'%'`
of the first dash-separated field, so removing only the first occurrence
coincides with the JavaScript call. -/
def portfolioReturn (portfolioData : Option Portfolio) : ℚ :=
  match portfolioData with
  | none => 0.05
  | some pd =>
    match pd.riskProfile with
    | none => 0.05
    | some rp =>
      (parseLeadingNat (removeFirst '%'
        ((splitChars '-' (rendimientoEsperado rp).data).headD [])) : ℚ) / 100

/-- Lines 92–95: filter to the transactions of the current calendar month
(`getMonth`/`getFullYear` equality against `now`). -/
def currentMonthData (transactions : List Tx) (now : DateYM) : List Tx :=
  transactions.filter fun t => t.date.month = now.month ∧ t.date.year = now.year

/-- The pattern `reduce((sum, t) => sum + t.amount, 0)`. -/
def sumAmounts (ts : List Tx) : ℚ :=
  ts.foldl (fun sum t => sum + t.amount) 0

/-- Lines 97–99. -/
def totalIncomeOf (transactions : List Tx) (now : DateYM) : ℚ :=
  sumAmounts ((currentMonthData transactions now).filter fun t => t.type = TxType.Ingreso)

/-- Lines 101–103. -/
def totalExpenseOf (transactions : List Tx) (now : DateYM) : ℚ :=
  sumAmounts ((currentMonthData transactions now).filter fun t => t.type = TxType.Egreso)

/-- Line 106. -/
def savingsRatioRaw (transactions : List Tx) (now : DateYM) : ℚ :=
  if 0 < totalIncomeOf transactions now then
    ((totalIncomeOf transactions now - totalExpenseOf transactions now) /
      totalIncomeOf transactions now) * 100
  else 0

/-- Line 107: `healthData?.totalDebt && totalIncome > 0 ?
(healthData.totalDebt / (totalIncome * 12)) * 100 : 0`.  The optional chain
plus truthiness test means: health present and `totalDebt ≠ 0`. -/
def debtToIncomeRaw (healthData : Option Health) (transactions : List Tx)
    (now : DateYM) : ℚ :=
  match healthData with
  | none => 0
  | some h =>
    if h.totalDebt ≠ 0 ∧ 0 < totalIncomeOf transactions now then
      (h.totalDebt / (totalIncomeOf transactions now * 12)) * 100
    else 0

/-- Line 111: the `Set` of `` `${year}-${month}` `` key strings over all
transactions, modelled as deduplicated `(year, month)` pairs (the key string
determines the pair: the month part, 0–11, contains no dash). -/
def monthKeysOf (transactions : List Tx) : List (Int × Nat) :=
  (transactions.map fun t => (t.date.year, t.date.month)).dedup

/-- Line 111: sum of all Expense-type amounts over the whole history. -/
def allExpenseSum (transactions : List Tx) : ℚ :=
  sumAmounts (transactions.filter fun t => t.type = TxType.Egreso)

/-- Lines 110–112, including the `size || 1` fallback and the outer
`transactions.length > 0` guard. -/
def averageMonthlyExpenseOf (transactions : List Tx) : ℚ :=
  if 0 < transactions.length then
    allExpenseSum transactions /
      ((if (monthKeysOf transactions).length = 0 then 1
        else (monthKeysOf transactions).length : ℕ) : ℚ)
  else 0

/-- Lines 114–116, with `healthData?.emergencyFund || 0`. -/
def emergencyFundMonthsRaw (healthData : Option Health)
    (transactions : List Tx) : ℚ :=
  if 0 < averageMonthlyExpenseOf transactions then
    (match healthData with | some h => h.emergencyFund | none => 0) /
      averageMonthlyExpenseOf transactions
  else 0

/-- The record returned at lines 122–131.  `savingsRatio`,
`debtToIncomeRatio` and `emergencyFundMonths` are emitted through
`toFixed(1)` as strings, the other fields as raw numbers. -/
structure Metrics where
  totalIncome : ℚ
  totalExpense : ℚ
  netMonthlyFlow : ℚ
  savingsRatio : String
  debtToIncomeRatio : String
  emergencyFundMonths : String
  futureValue : ℚ
  averageMonthlyExpense : ℚ
  deriving DecidableEq, Repr

/-- Lines 87–132: `calculateMetrics(transactions, healthData, portfolioData)`
with the `new Date()` clock read made explicit as `now`. -/
def calculateMetrics (transactions : List Tx) (healthData : Option Health)
    (portfolioData : Option Portfolio) (now : DateYM) : Metrics :=
  { totalIncome := totalIncomeOf transactions now
    totalExpense := totalExpenseOf transactions now
    netMonthlyFlow := totalIncomeOf transactions now - totalExpenseOf transactions now
    savingsRatio := toFixed1 (max 0 (savingsRatioRaw transactions now))
    debtToIncomeRatio := toFixed1 (debtToIncomeRaw healthData transactions now)
    emergencyFundMonths := toFixed1 (emergencyFundMonthsRaw healthData transactions)
    futureValue :=
      (match healthData with | some h => h.investmentCapital | none => 0) *
        (1 + portfolioReturn portfolioData) ^ 10
    averageMonthlyExpense := averageMonthlyExpenseOf transactions }

/-- An entry of the pie-chart data (line 146–148): `{name, value}`. -/
structure PiePoint where
  name : String
  value : ℚ
  deriving DecidableEq, Repr

/-- Lines 141–144: `acc[item.category] = (acc[item.category] || 0) + item.amount`
over an object whose (non-numeric) string keys keep insertion order: an
association list, updated in place or extended with a fresh key at the end. -/
def addAmount (acc : List (String × ℚ)) (cat : String) (amt : ℚ) : List (String × ℚ) :=
  match acc with
  | [] => [(cat, amt)]
  | (c, v) :: rest =>
    if c = cat then (c, v + amt) :: rest else (c, v) :: addAmount rest cat amt

/-- Lines 139–144: filter to Expense-type transactions and accumulate
per-category totals. -/
def groupedData (transactions : List Tx) : List (String × ℚ) :=
  (transactions.filter fun t => t.type = TxType.Egreso).foldl
    (fun acc t => addAmount acc t.category t.amount) []

/-- Line 149 comparator `(a, b) => b.value - a.value` under the stable
ECMAScript `Array.prototype.sort`: the unique stable descending-by-value
reordering, realised as a stable insertion sort (an element is inserted
behind every strictly larger one and in front of the first non-larger one,
so elements with equal values keep their relative order). -/
def insertDescValue (x : PiePoint) : List PiePoint → List PiePoint
  | [] => [x]
  | c :: cs => if x.value < c.value then c :: insertDescValue x cs else x :: c :: cs

def sortDescValue : List PiePoint → List PiePoint
  | [] => []
  | x :: xs => insertDescValue x (sortDescValue xs)

/-- Lines 138–149: the pie-chart transform (`groupByCategory` of the spec). -/
def pieData (transactions : List Tx) : List PiePoint :=
  sortDescValue ((groupedData transactions).map fun p => { name := p.1, value := p.2 })

/-- A bucket of the monthly bar chart (lines 180–184): keyed by
`` `${year}-${month+1}` `` (modelled as the `(year, month)` pair the key
string encodes), with the display `name` and the two running sums. -/
structure MonthBucket where
  year : Int
  month : Nat
  name : String
  Ingreso : ℚ
  Egreso : ℚ
  deriving DecidableEq, Repr

/-- The string `date.toLocaleString('es-US', { month: 'short' })` for
`getMonth()` values 0–11.  Only two facts about these strings are used by the source's
comparator: they contain no space and no decimal digit. -/
def monthShortEs : Nat → String
  | 0 => "ene" | 1 => "feb" | 2 => "mar" | 3 => "abr"
  | 4 => "may" | 5 => "jun" | 6 => "jul" | 7 => "ago"
  | 8 => "sept" | 9 => "oct" | 10 => "nov" | 11 => "dic"
  | _ => ""

/-- Line 181: `` `${date.toLocaleString('es-US', {month:'short'})} ${date.getFullYear()}` ``. -/
def mkBucketName (d : DateYM) : String :=
  monthShortEs d.month ++ " " ++ toString d.year

/-- Line 183: `acc[monthKey][t.type] += t.amount`. -/
def bumpBucket (b : MonthBucket) (t : Tx) : MonthBucket :=
  match t.type with
  | .Ingreso => { b with Ingreso := b.Ingreso + t.amount }
  | .Egreso => { b with Egreso := b.Egreso + t.amount }

/-- Lines 180–182: the fresh `{name, Ingreso: 0, Egreso: 0}` bucket. -/
def freshBucket (d : DateYM) : MonthBucket :=
  { year := d.year, month := d.month, name := mkBucketName d, Ingreso := 0, Egreso := 0 }

/-- One step of the `reduce` of lines 177–185: find the bucket of the
transaction's month key (object keys keep insertion order; fresh keys are
appended at the end). -/
def addToMonth (acc : List MonthBucket) (t : Tx) : List MonthBucket :=
  match acc with
  | [] => [bumpBucket (freshBucket t.date) t]
  | b :: rest =>
    if b.year = t.date.year ∧ b.month = t.date.month then bumpBucket b t :: rest
    else b :: addToMonth rest t

def monthlyData (transactions : List Tx) : List MonthBucket :=
  transactions.foldl addToMonth []

/-- Line 189/190: `parseInt(s.replace(/[^0-9]/g, '')) || 0` — strip every
non-digit, parse what is left, coerce `NaN` (no digits at all) to `0`. -/
def parseIntDigits (cs : List Char) : Int :=
  (digitsVal 0 (cs.filter isDigitCh) : Int)

/-- Lines 189–190: `const [aYear, aMonth] = a.name.split(' ').map(...)`.
A bucket name `"feb 2025"` splits into the month abbreviation and the year,
so the destructured `aYear` is the (digit-free) abbreviation parsed to `0`
and `aMonth` is the calendar year.  The one-field and zero-field arms are
dead code for names produced by `mkBucketName`. -/
def nameKey (name : String) : Int × Int :=
  match (splitChars ' ' name.data).map (fun part => parseIntDigits part) with
  | a :: b :: _ => (a, b)
  | [a] => (a, 0)
  | [] => (0, 0)

/-- Lines 191–192: the comparator orders `a` before `b` iff
`aYear < bYear`, or the years tie and `aMonth < bMonth`. -/
def keyLtB (a b : Int × Int) : Bool :=
  a.1 < b.1 || (a.1 = b.1 && a.2 < b.2)

/-- Stable ascending insertion by the comparator key of `nameKey`
(ECMAScript `sort` is stable: comparator-equal buckets keep their
first-encountered order). -/
def insertAscKey (x : MonthBucket) : List MonthBucket → List MonthBucket
  | [] => [x]
  | c :: cs =>
    if keyLtB (nameKey c.name) (nameKey x.name) then c :: insertAscKey x cs
    else x :: c :: cs

def sortBuckets : List MonthBucket → List MonthBucket
  | [] => []
  | x :: xs => insertAscKey x (sortBuckets xs)

/-- Lines 176–193: the bar-chart transform (`groupByMonth` of the spec),
including the final `.slice(-6)`. -/
def groupByMonthData (transactions : List Tx) : List MonthBucket :=
  let sorted := sortBuckets (monthlyData transactions)
  sorted.drop (sorted.length - 6)

/-- A point of the projection chart (lines 217–220). -/
structure ProjPoint where
  year : String
  value : ℤ
  deriving DecidableEq, Repr

/-- The loop of lines 216–222: push `Math.round(currentCapital)` for
year `i`, then multiply the (unrounded) running capital by `1 + rate`. -/
def projLoop (rate : ℚ) : Nat → Nat → ℚ → List ProjPoint
  | 0, _, _ => []
  | n + 1, i, currentCapital =>
    { year := "Año " ++ toString i, value := jsRound currentCapital } ::
      projLoop rate n (i + 1) (currentCapital * (1 + rate))

/-- Lines 210–222: `ProjectionLineChart` data (`projectGrowth` of the spec):
11 points for years 0–10, `rate = annualReturn / 100`. -/
def projectGrowth (capital : ℚ) (annualReturn : ℚ) : List ProjPoint :=
  projLoop (annualReturn / 100) 11 0 capital

/- Spec-side definitions, written after the specification's words, to be
   compared with the source-side definitions above. -/

/-- Spec §4.1: the annual rate is "the lower bound of its expected-return
interval", 5%/8%/12% for the three tiers, "default 5% if no profile set". -/
def specLowerBoundRate : Option RiskProfile → ℚ
  | some .Conservador => 0.05
  | some .Moderado => 0.08
  | some .Agresivo => 0.12
  | none => 0.05

/-- Spec §4.1: "(sum of ALL Expense-type amounts, across all time) /
(count of distinct year-month buckets present across ALL transactions, of
either type)", divisor treated as 1 when no buckets exist. -/
def specAverageMonthlyExpense (transactions : List Tx) : ℚ :=
  ((transactions.filter fun t => t.type = TxType.Egreso).map Tx.amount).sum /
    (max 1 ((transactions.map fun t => (t.date.year, t.date.month)).toFinset.card) : ℕ)

/-- Spec §4.1: "(netFlow / totalIncome) × 100 if totalIncome > 0, else 0",
where netFlow = totalIncome − totalExpense. -/
def specSavingsRatio (income expense : ℚ) : ℚ :=
  if 0 < income then ((income - expense) / income) * 100 else 0

/-- Spec §4.1: "(health.totalDebt / (totalIncome × 12)) × 100 if both
health.totalDebt and totalIncome are present/positive, else 0". -/
def specDebtToIncome (healthData : Option Health) (income : ℚ) : ℚ :=
  match healthData with
  | none => 0
  | some h =>
    if 0 < h.totalDebt ∧ 0 < income then (h.totalDebt / (income * 12)) * 100 else 0

/-- Spec §4.1: "health.emergencyFund / averageMonthlyExpense, or 0 if
averageMonthlyExpense is 0". -/
def specEmergencyFundMonths (healthData : Option Health)
    (transactions : List Tx) : ℚ :=
  if specAverageMonthlyExpense transactions = 0 then 0
  else (match healthData with | some h => h.emergencyFund | none => 0) /
    specAverageMonthlyExpense transactions

/-- Spec §4.2: the Expense-type total of one category. -/
def specCategorySum (transactions : List Tx) (c : String) : ℚ :=
  ((transactions.filter fun t => t.type = TxType.Egreso ∧ t.category = c).map
    Tx.amount).sum

/-- Spec §8: "the sum of all Expense-type amounts in the input". -/
def specExpenseTotal (transactions : List Tx) : ℚ :=
  ((transactions.filter fun t => t.type = TxType.Egreso).map Tx.amount).sum

/-- Forget the soft-delete flag (the one field `handleDelete` writes). -/
def scrubDeleted (t : Tx) : Tx := { t with deleted := false }

/-- The total amount an accumulator of `groupedData` holds under one
category key (the single entry's value once keys are known to be unique). -/
def vfAmt (acc : List (String × ℚ)) (c : String) : ℚ :=
  ((acc.filter fun p => p.1 = c).map Prod.snd).sum

/- Concrete fixtures for scenario and counterexample evaluations. -/

def txIncome1000 : Tx :=
  { type := .Ingreso, amount := 1000, category := "Salario",
    date := { year := 2025, month := 9 } }

def txExpense400 : Tx :=
  { type := .Egreso, amount := 400, category := "Alimentos",
    date := { year := 2025, month := 9 } }

def txExpense1000 : Tx :=
  { type := .Egreso, amount := 1000, category := "Alimentos",
    date := { year := 2025, month := 9 } }

/-- An Expense dated February 2025 (`getMonth() = 1`). -/
def txFeb25 : Tx :=
  { type := .Egreso, amount := 1, category := "Otros",
    date := { year := 2025, month := 1 } }

/-- An Expense dated January 2025 (`getMonth() = 0`). -/
def txJan25 : Tx :=
  { type := .Egreso, amount := 1, category := "Otros",
    date := { year := 2025, month := 0 } }

def octNow : DateYM := { year := 2025, month := 9 }

def healthSample : Health :=
  { investmentCapital := 10000, totalDebt := 0, emergencyFund := 0 }

def healthDebt : Health :=
  { investmentCapital := 0, totalDebt := 1200, emergencyFund := 800 }

def portfolioModerado : Portfolio := { riskProfile := some .Moderado }

/- ------------------------------------------------------------------ -/
/- Theorems.                                                           -/
/- ------------------------------------------------------------------ -/

lemma toFixed1_eq (q : ℚ) (n : ℤ) (h : ⌊q * 10 + 1 / 2⌋ = n) :
    toFixed1 q = (if n < 0 then "-" else "") ++
      toString (n.natAbs / 10) ++ "." ++ toString (n.natAbs % 10) := by
  unfold toFixed1
  rw [h]

lemma toFixed1_zero : toFixed1 0 = "0.0" := by
  rw [toFixed1_eq 0 0 (by norm_num)]
  decide

lemma foldl_add_amount (ts : List Tx) (a : ℚ) :
    ts.foldl (fun sum t => sum + t.amount) a = a + (ts.map Tx.amount).sum := by
  induction ts generalizing a with
  | nil => simp
  | cons t ts ih => simp [ih, add_assoc]

lemma sumAmounts_eq (ts : List Tx) : sumAmounts ts = (ts.map Tx.amount).sum := by
  simp [sumAmounts, foldl_add_amount]

lemma projLoop_map_value (rate : ℚ) (n : ℕ) :
    ∀ (i : ℕ) (c : ℚ),
      (projLoop rate n i c).map ProjPoint.value =
        (List.range n).map fun k => jsRound (c * (1 + rate) ^ k) := by
  induction n with
  | zero => intro i c; simp [projLoop]
  | succ m ih =>
    intro i c
    rw [List.range_succ_eq_map]
    simp only [projLoop, List.map_cons, List.map_map, ih]
    congr 1
    · simp
    · refine List.map_congr_left fun k _ => ?_
      simp only [Function.comp_apply]
      unfold jsRound
      congr 2
      rw [pow_succ]
      ring

/-- C3 (amended): projectGrowth(c, r) returns exactly 11 points, point i
being the compounded value c·(1 + r/100)^i rounded to the nearest integer at
emission — including point 0, which is round(c), not the unrounded c; the
unrounded running value is carried forward, so for r = 0 all 11 points equal
round(c), and projectGrowth(1000, 10) yields [1000, 1100, 1210, 1331, 1464,
1611, 1772, 1949, 2144, 2358, 2594]. -/
theorem projectGrowth_points :
    (∀ c r : ℚ, (projectGrowth c r).map ProjPoint.value =
      (List.range 11).map fun k => jsRound (c * (1 + r / 100) ^ k)) ∧
    (∀ c : ℚ, (projectGrowth c 0).map ProjPoint.value =
      List.replicate 11 (jsRound c)) ∧
    (projectGrowth 1000 10).map ProjPoint.value =
      [1000, 1100, 1210, 1331, 1464, 1611, 1772, 1949, 2144, 2358, 2594] := by
  have key : ∀ c r : ℚ, (projectGrowth c r).map ProjPoint.value =
      (List.range 11).map fun k => jsRound (c * (1 + r / 100) ^ k) := by
    intro c r
    exact projLoop_map_value (r / 100) 11 0 c
  refine ⟨key, ?_, ?_⟩
  · intro c
    rw [key]
    norm_num [List.eq_replicate_iff]
  · rw [key]
    norm_num [List.range_succ, jsRound]

/-- C3 counterexample: the first emitted point of projectGrowth(0.5, 0) is
round(0.5) = 1, not the initial capital 0.5 — point 0 is rounded too. -/
theorem projectGrowth_point0_rounded :
    ((projectGrowth (1 / 2) 0).map fun p => (p.value : ℚ)).head? = some 1 ∧
      (1 : ℚ) ≠ 1 / 2 := by
  constructor
  · norm_num [projectGrowth, projLoop, jsRound]
  · norm_num

/-- C9: on the empty transaction list, for every (possibly absent) health
and portfolio profile and every current date, all current-month totals, all
ratios and the average are 0 (the formatted ones display as "0.0"),
emergencyFundMonths is 0, and every division is behind a zero-guard: the
function is total and returns these defaults rather than failing. -/
theorem calculateMetrics_empty (h : Option Health) (p : Option Portfolio)
    (now : DateYM) :
    (calculateMetrics [] h p now).totalIncome = 0 ∧
    (calculateMetrics [] h p now).totalExpense = 0 ∧
    (calculateMetrics [] h p now).netMonthlyFlow = 0 ∧
    (calculateMetrics [] h p now).savingsRatio = "0.0" ∧
    (calculateMetrics [] h p now).debtToIncomeRatio = "0.0" ∧
    (calculateMetrics [] h p now).emergencyFundMonths = "0.0" ∧
    (calculateMetrics [] h p now).averageMonthlyExpense = 0 := by
  have hI : totalIncomeOf [] now = 0 := by
    simp [totalIncomeOf, currentMonthData, sumAmounts]
  have hE : totalExpenseOf [] now = 0 := by
    simp [totalExpenseOf, currentMonthData, sumAmounts]
  have hA : averageMonthlyExpenseOf [] = 0 := by
    simp [averageMonthlyExpenseOf]
  refine ⟨hI, hE, ?_, ?_, ?_, ?_, ?_⟩
  · simp [calculateMetrics, hI, hE]
  · simp [calculateMetrics, savingsRatioRaw, hI, toFixed1_zero]
  · cases h <;>
      simp [calculateMetrics, debtToIncomeRaw, hI, toFixed1_zero]
  · simp [calculateMetrics, emergencyFundMonthsRaw, hA, toFixed1_zero]
  · simp [calculateMetrics, hA]

/-- C2 (amended): calculateMetrics is deterministic in its three inputs
together with the current calendar date it reads from the clock: two
invocations with identical transactions, health profile, portfolio profile
and current date yield identical Metrics records.  (The clock date is a
genuine fourth input: the current-month filter depends on it, so identical
three-tuples alone do not suffice — see the counterexample.) -/
theorem calculateMetrics_deterministic (t₁ t₂ : List Tx)
    (h₁ h₂ : Option Health) (p₁ p₂ : Option Portfolio) (n₁ n₂ : DateYM)
    (ht : t₁ = t₂) (hh : h₁ = h₂) (hp : p₁ = p₂) (hn : n₁ = n₂) :
    calculateMetrics t₁ h₁ p₁ n₁ = calculateMetrics t₂ h₂ p₂ n₂ := by
  subst ht hh hp hn
  rfl

theorem calculateMetrics_deterministic_witness :
    calculateMetrics [txIncome1000] none none octNow =
      calculateMetrics [txIncome1000] none none octNow :=
  calculateMetrics_deterministic [txIncome1000] [txIncome1000] none none
    none none octNow octNow rfl rfl rfl rfl

/-- C2 counterexample: with the transaction list, health and portfolio held
fixed, moving the ambient clock from October to November 2025 changes the
output (totalIncome 1000 becomes 0), so the code does depend on ambient
state beyond the three inputs. -/
theorem calculateMetrics_clock_dependent :
    calculateMetrics [txIncome1000] none none octNow ≠
      calculateMetrics [txIncome1000] none none { year := 2025, month := 10 } := by
  intro hEq
  have h1 : (calculateMetrics [txIncome1000] none none octNow).totalIncome = 1000 := by
    simp [calculateMetrics, totalIncomeOf, currentMonthData, sumAmounts,
      txIncome1000, octNow]
  have h2 : (calculateMetrics [txIncome1000] none none
      { year := 2025, month := 10 }).totalIncome = 0 := by
    simp [calculateMetrics, totalIncomeOf, currentMonthData, sumAmounts,
      txIncome1000]
  rw [hEq, h2] at h1
  norm_num at h1

lemma toFixed1_60 : toFixed1 60 = "60.0" := by
  rw [toFixed1_eq 60 600 (by norm_num)]
  decide

lemma totalIncome_scenario :
    totalIncomeOf [txIncome1000, txExpense400] octNow = 1000 := by
  simp [totalIncomeOf, currentMonthData, sumAmounts, txIncome1000,
    txExpense400, octNow]

lemma totalExpense_scenario :
    totalExpenseOf [txIncome1000, txExpense400] octNow = 400 := by
  simp [totalExpenseOf, currentMonthData, sumAmounts, txIncome1000,
    txExpense400, octNow]

/-- C4 (amended): the emitted savingsRatio is max(0, r) to one decimal where
r = (netFlow/totalIncome)·100 when the current-month totalIncome is positive
and 0 otherwise; the clamped value is never negative, and it is 0 whenever
totalIncome = 0 — but not only then: it is also 0 whenever netFlow ≤ 0, so
"equals 0 exactly when totalIncome = 0" fails in the right-to-left reading
(see the counterexample).  The income-1000/expense-400 scenario holds. -/
theorem savingsRatio_spec :
    (∀ (ts : List Tx) (h : Option Health) (p : Option Portfolio) (now : DateYM),
      (calculateMetrics ts h p now).savingsRatio =
        toFixed1 (max 0 (specSavingsRatio (totalIncomeOf ts now) (totalExpenseOf ts now))) ∧
      0 ≤ max 0 (specSavingsRatio (totalIncomeOf ts now) (totalExpenseOf ts now))) ∧
    (∀ (ts : List Tx) (h : Option Health) (p : Option Portfolio) (now : DateYM),
      totalIncomeOf ts now = 0 →
        (calculateMetrics ts h p now).savingsRatio = "0.0") ∧
    ((calculateMetrics [txIncome1000, txExpense400] none none octNow).totalIncome = 1000 ∧
      (calculateMetrics [txIncome1000, txExpense400] none none octNow).totalExpense = 400 ∧
      (calculateMetrics [txIncome1000, txExpense400] none none octNow).netMonthlyFlow = 600 ∧
      (calculateMetrics [txIncome1000, txExpense400] none none octNow).savingsRatio = "60.0" ∧
      (calculateMetrics [txIncome1000, txExpense400] none none octNow).debtToIncomeRatio = "0.0") := by
  refine ⟨fun ts h p now => ⟨rfl, le_max_left 0 _⟩, ?_, ?_⟩
  · intro ts h p now h0
    simp [calculateMetrics, savingsRatioRaw, h0, toFixed1_zero]
  · have hsr : savingsRatioRaw [txIncome1000, txExpense400] octNow = 60 := by
      rw [savingsRatioRaw, totalIncome_scenario, totalExpense_scenario]
      norm_num
    refine ⟨totalIncome_scenario, totalExpense_scenario, ?_, ?_, ?_⟩
    · show totalIncomeOf _ _ - totalExpenseOf _ _ = 600
      rw [totalIncome_scenario, totalExpense_scenario]
      norm_num
    · show toFixed1 (max 0 (savingsRatioRaw _ _)) = "60.0"
      rw [hsr, show max (0 : ℚ) 60 = 60 from by norm_num, toFixed1_60]
    · simp [calculateMetrics, debtToIncomeRaw, toFixed1_zero]

theorem savingsRatio_spec_witness :
    (calculateMetrics [] none none octNow).savingsRatio = "0.0" :=
  savingsRatio_spec.2.1 [] none none octNow
    (by simp [totalIncomeOf, currentMonthData, sumAmounts])

/-- C4 counterexample: with one current-month Income of 1000 and one
current-month Expense of 1000, the emitted savingsRatio is "0.0" although
totalIncome = 1000 ≠ 0 — the output is 0 without totalIncome being 0, so
"savingsRatio equals 0 exactly when totalIncome = 0" is false. -/
theorem savingsRatio_zero_without_zero_income :
    (calculateMetrics [txIncome1000, txExpense1000] none none octNow).savingsRatio = "0.0" ∧
      (calculateMetrics [txIncome1000, txExpense1000] none none octNow).totalIncome ≠ 0 := by
  have hI : totalIncomeOf [txIncome1000, txExpense1000] octNow = 1000 := by
    simp [totalIncomeOf, currentMonthData, sumAmounts, txIncome1000,
      txExpense1000, octNow]
  have hE : totalExpenseOf [txIncome1000, txExpense1000] octNow = 1000 := by
    simp [totalExpenseOf, currentMonthData, sumAmounts, txIncome1000,
      txExpense1000, octNow]
  constructor
  · show toFixed1 (max 0 (savingsRatioRaw _ _)) = "0.0"
    have : savingsRatioRaw [txIncome1000, txExpense1000] octNow = 0 := by
      rw [savingsRatioRaw, hI, hE]
      norm_num
    rw [this, max_self, toFixed1_zero]
  · show totalIncomeOf _ _ ≠ 0
    rw [hI]
    norm_num

lemma parseConservador :
    parseLeadingNat (removeFirst '%'
      (((splitChars '-' (rendimientoEsperado RiskProfile.Conservador).data).head?).getD [])) = 5 := by
  decide

lemma parseModerado :
    parseLeadingNat (removeFirst '%'
      (((splitChars '-' (rendimientoEsperado RiskProfile.Moderado).data).head?).getD [])) = 8 := by
  decide

lemma parseAgresivo :
    parseLeadingNat (removeFirst '%'
      (((splitChars '-' (rendimientoEsperado RiskProfile.Agresivo).data).head?).getD [])) = 12 := by
  decide

lemma portfolioReturn_eq (p : Option Portfolio) :
    portfolioReturn p = specLowerBoundRate (p.bind Portfolio.riskProfile) := by
  rcases p with _ | ⟨_ | rp⟩
  · rfl
  · rfl
  · cases rp <;>
      simp [portfolioReturn, Option.bind, specLowerBoundRate,
        parseConservador, parseModerado, parseAgresivo] <;>
      norm_num

/-- C5: futureValue is the (defaulted-to-0) investment capital compounded
for exactly 10 years at the lower bound of the risk tier's expected-return
interval — 5%, 8%, 12% for Conservative/Moderate/Aggressive, parsed out of
the static table's range strings — defaulting to 5% when no risk profile is
set; investmentCapital 10000 with the Moderate profile gives
10000·1.08^10 ≈ 21589 (21589 after rounding to the nearest integer). -/
theorem futureValue_spec :
    (∀ p, portfolioReturn p = specLowerBoundRate (p.bind Portfolio.riskProfile)) ∧
    (∀ (ts : List Tx) (h : Option Health) (p : Option Portfolio) (now : DateYM),
      (calculateMetrics ts h p now).futureValue =
        (match h with | some hd => hd.investmentCapital | none => 0) *
          (1 + specLowerBoundRate (p.bind Portfolio.riskProfile)) ^ 10) ∧
    jsRound ((calculateMetrics [] (some healthSample) (some portfolioModerado)
      octNow).futureValue) = 21589 := by
  refine ⟨portfolioReturn_eq, ?_, ?_⟩
  · intro ts h p now
    show (match h with | some hd => hd.investmentCapital | none => 0) *
        (1 + portfolioReturn p) ^ 10 = _
    rw [portfolioReturn_eq]
  · show jsRound ((match some healthSample with
        | some hd => hd.investmentCapital | none => 0) *
        (1 + portfolioReturn (some portfolioModerado)) ^ 10) = 21589
    rw [show portfolioReturn (some portfolioModerado) = 0.08 from
      portfolioReturn_eq _]
    rw [jsRound, Int.floor_eq_iff]
    constructor <;> norm_num [healthSample]

/-- C8: debtToIncomeRatio equals (health.totalDebt / (totalIncome × 12)) ×
100 when health is present with positive totalDebt and the current-month
totalIncome is positive, and 0 otherwise, emitted to one decimal place
(given the data-model constraint that totalDebt is non-negative, under which
the source's truthiness test totalDebt ≠ 0 coincides with positivity). -/
theorem debtToIncome_spec (ts : List Tx) (h : Option Health)
    (p : Option Portfolio) (now : DateYM)
    (hd : ∀ x, h = some x → 0 ≤ x.totalDebt) :
    (calculateMetrics ts h p now).debtToIncomeRatio =
      toFixed1 (specDebtToIncome h (totalIncomeOf ts now)) := by
  rcases h with _ | x
  · rfl
  · have hx : 0 ≤ x.totalDebt := hd x rfl
    show toFixed1 (debtToIncomeRaw (some x) ts now) = _
    rw [debtToIncomeRaw, specDebtToIncome]
    congr 1
    apply if_congr ?_ rfl rfl
    constructor
    · rintro ⟨hne, hinc⟩
      exact ⟨lt_of_le_of_ne hx (Ne.symm hne), hinc⟩
    · rintro ⟨hlt, hinc⟩
      exact ⟨ne_of_gt hlt, hinc⟩

theorem debtToIncome_spec_witness :
    (calculateMetrics [txIncome1000] (some healthDebt) none octNow).debtToIncomeRatio =
      toFixed1 (specDebtToIncome (some healthDebt) (totalIncomeOf [txIncome1000] octNow)) :=
  debtToIncome_spec [txIncome1000] (some healthDebt) none octNow
    (fun x hx => by cases hx; norm_num [healthDebt])

lemma averageMonthlyExpenseOf_eq (ts : List Tx) :
    averageMonthlyExpenseOf ts = specAverageMonthlyExpense ts := by
  by_cases hnil : ts = []
  · subst hnil
    simp [averageMonthlyExpenseOf, specAverageMonthlyExpense]
  · have hlen : 0 < ts.length := List.length_pos.mpr hnil
    have hkeys : (monthKeysOf ts).length ≠ 0 := by
      intro h0
      apply hnil
      have hd : (ts.map fun t => (t.date.year, t.date.month)).dedup = [] :=
        List.length_eq_zero.mp h0
      exact List.map_eq_nil_iff.mp ((List.dedup_eq_nil _).mp hd)
    rw [averageMonthlyExpenseOf, if_pos hlen, if_neg hkeys,
      specAverageMonthlyExpense, allExpenseSum, sumAmounts_eq]
    congr 1
    rw [List.card_toFinset]
    show ((monthKeysOf ts).length : ℚ) = ((max 1 (monthKeysOf ts).length : ℕ) : ℚ)
    congr 1
    exact (max_eq_right (Nat.one_le_iff_ne_zero.mpr hkeys)).symm

lemma averageMonthlyExpenseOf_nonneg (ts : List Tx)
    (hpos : ∀ t ∈ ts, 0 ≤ t.amount) : 0 ≤ averageMonthlyExpenseOf ts := by
  rw [averageMonthlyExpenseOf]
  split
  · apply div_nonneg
    · rw [allExpenseSum, sumAmounts_eq]
      apply List.sum_nonneg
      intro q hq
      rcases List.mem_map.mp hq with ⟨t, ht, rfl⟩
      exact hpos t (List.mem_of_mem_filter ht)
    · exact Nat.cast_nonneg _
  · exact le_refl 0

/-- C6: averageMonthlyExpense is the all-time Expense total divided by the
number of distinct (year, month) buckets over ALL transactions of either
type (divisor 1 when no buckets exist), and the emitted emergencyFundMonths
is health.emergencyFund / averageMonthlyExpense — 0 when the average is 0 —
to one decimal place.  Stated under the data-model constraint that amounts
are non-negative, under which the source's strict-positivity guard on the
average coincides with the spec's non-zero reading. -/
theorem averageExpense_spec (ts : List Tx) (h : Option Health)
    (p : Option Portfolio) (now : DateYM)
    (hpos : ∀ t ∈ ts, 0 ≤ t.amount) :
    (calculateMetrics ts h p now).averageMonthlyExpense =
      specAverageMonthlyExpense ts ∧
    (calculateMetrics ts h p now).emergencyFundMonths =
      toFixed1 (specEmergencyFundMonths h ts) := by
  refine ⟨averageMonthlyExpenseOf_eq ts, ?_⟩
  show toFixed1 (emergencyFundMonthsRaw h ts) = _
  congr 1
  simp only [emergencyFundMonthsRaw, specEmergencyFundMonths]
  rw [← averageMonthlyExpenseOf_eq]
  rcases lt_or_eq_of_le (averageMonthlyExpenseOf_nonneg ts hpos) with hlt | heq
  · rw [if_pos hlt, if_neg (ne_of_gt hlt)]
  · rw [if_neg (by rw [← heq]; exact lt_irrefl (0 : ℚ)), if_pos heq.symm]

theorem averageExpense_spec_witness :
    (calculateMetrics [txExpense400] (some healthDebt) none octNow).averageMonthlyExpense =
      specAverageMonthlyExpense [txExpense400] ∧
    (calculateMetrics [txExpense400] (some healthDebt) none octNow).emergencyFundMonths =
      toFixed1 (specEmergencyFundMonths (some healthDebt) [txExpense400]) :=
  averageExpense_spec [txExpense400] (some healthDebt) none octNow
    (fun t ht => by
      rw [List.mem_singleton] at ht
      subst ht
      norm_num [txExpense400])

lemma vfAmt_nil (c' : String) : vfAmt [] c' = 0 := rfl

lemma vfAmt_cons (p : String × ℚ) (rest : List (String × ℚ)) (c' : String) :
    vfAmt (p :: rest) c' = (if p.1 = c' then p.2 else 0) + vfAmt rest c' := by
  rcases p with ⟨c₀, v⟩
  by_cases h : c₀ = c'
  · simp [vfAmt, h]
  · simp [vfAmt, h]

lemma addAmount_sumSnd (acc : List (String × ℚ)) (c : String) (a : ℚ) :
    ((addAmount acc c a).map Prod.snd).sum = (acc.map Prod.snd).sum + a := by
  induction acc with
  | nil => simp [addAmount]
  | cons p rest ih =>
    rcases p with ⟨c₀, v⟩
    by_cases h : c₀ = c
    · subst h
      simp only [addAmount, if_true, eq_self_iff_true, List.map_cons,
        List.sum_cons]
      ring
    · simp only [addAmount, if_neg h, List.map_cons, List.sum_cons, ih]
      ring

lemma addAmount_vf (acc : List (String × ℚ)) (c : String) (a : ℚ) (c' : String) :
    vfAmt (addAmount acc c a) c' = vfAmt acc c' + (if c = c' then a else 0) := by
  induction acc with
  | nil =>
    rw [show addAmount [] c a = [(c, a)] from rfl, vfAmt_cons, vfAmt_nil]
    simp
  | cons p rest ih =>
    rcases p with ⟨c₀, v⟩
    by_cases h0 : c₀ = c
    · subst h0
      rw [show addAmount ((c₀, v) :: rest) c₀ a = (c₀, v + a) :: rest from by
        simp [addAmount]]
      rw [vfAmt_cons, vfAmt_cons]
      by_cases h' : c₀ = c'
      · simp only [h', if_true, eq_self_iff_true]
        ring
      · simp [h']
    · rw [show addAmount ((c₀, v) :: rest) c a = (c₀, v) :: addAmount rest c a from by
        simp [addAmount, h0]]
      rw [vfAmt_cons, vfAmt_cons, ih]
      ring

lemma foldl_addAmount_vf (l : List Tx) :
    ∀ (acc : List (String × ℚ)) (c : String),
      vfAmt (l.foldl (fun acc t => addAmount acc t.category t.amount) acc) c =
        vfAmt acc c + ((l.filter fun t => t.category = c).map Tx.amount).sum := by
  induction l with
  | nil => intro acc c; simp
  | cons t l ih =>
    intro acc c
    rw [List.foldl_cons, ih, addAmount_vf, List.filter_cons]
    by_cases h : t.category = c
    · simp only [h, if_true, eq_self_iff_true, decide_true_eq_true,
        decide_eq_true_eq, List.map_cons, List.sum_cons]
      ring
    · simp [h]

lemma foldl_addAmount_sumSnd (l : List Tx) :
    ∀ acc : List (String × ℚ),
      ((l.foldl (fun acc t => addAmount acc t.category t.amount) acc).map
        Prod.snd).sum = (acc.map Prod.snd).sum + (l.map Tx.amount).sum := by
  induction l with
  | nil => intro acc; simp
  | cons t l ih =>
    intro acc
    rw [List.foldl_cons, ih, addAmount_sumSnd]
    simp only [List.map_cons, List.sum_cons]
    ring

lemma addAmount_keys (acc : List (String × ℚ)) (c : String) (a : ℚ) :
    (addAmount acc c a).map Prod.fst =
      if c ∈ acc.map Prod.fst then acc.map Prod.fst
      else acc.map Prod.fst ++ [c] := by
  induction acc with
  | nil => simp [addAmount]
  | cons p rest ih =>
    rcases p with ⟨c₀, v⟩
    by_cases h0 : c₀ = c
    · subst h0
      simp [addAmount]
    · have hne : ¬(c = c₀) := fun hh => h0 hh.symm
      simp only [addAmount, if_neg h0, List.map_cons, ih, List.mem_cons, hne,
        false_or]
      by_cases hm : c ∈ rest.map Prod.fst
      · simp [hm]
      · simp [hm]

lemma addAmount_keys_nodup (acc : List (String × ℚ)) (c : String) (a : ℚ)
    (h : (acc.map Prod.fst).Nodup) : ((addAmount acc c a).map Prod.fst).Nodup := by
  rw [addAmount_keys]
  split_ifs with hm
  · exact h
  · refine List.Nodup.append h (List.nodup_singleton c) ?_
    intro x hx hxc
    rw [List.mem_singleton] at hxc
    subst hxc
    exact hm hx

lemma foldl_addAmount_keys_nodup (l : List Tx) :
    ∀ acc : List (String × ℚ), (acc.map Prod.fst).Nodup →
      ((l.foldl (fun acc t => addAmount acc t.category t.amount) acc).map
        Prod.fst).Nodup := by
  induction l with
  | nil => intro acc h; exact h
  | cons t l ih => intro acc h; exact ih _ (addAmount_keys_nodup _ _ _ h)

lemma groupedData_keys_nodup (ts : List Tx) :
    ((groupedData ts).map Prod.fst).Nodup :=
  foldl_addAmount_keys_nodup _ [] (by simp)

lemma filter_eq_single_of_nodup (acc : List (String × ℚ)) (e : String × ℚ)
    (hnd : (acc.map Prod.fst).Nodup) (he : e ∈ acc) :
    acc.filter (fun p => p.1 = e.1) = [e] := by
  induction acc with
  | nil => cases he
  | cons p rest ih =>
    rw [List.map_cons, List.nodup_cons] at hnd
    obtain ⟨hp, hrest⟩ := hnd
    rcases List.mem_cons.mp he with rfl | hmem
    · rw [List.filter_cons_of_pos (by simp)]
      have hnil : rest.filter (fun q => q.1 = e.1) = [] := by
        rw [List.filter_eq_nil_iff]
        intro q hq
        simp only [decide_eq_true_eq]
        intro hqe
        exact hp (hqe ▸ List.mem_map_of_mem Prod.fst hq)
      rw [hnil]
    · have hne : ¬(p.1 = e.1) := by
        intro hpe
        exact hp (hpe ▸ List.mem_map_of_mem Prod.fst hmem)
      rw [List.filter_cons_of_neg (by simp [hne])]
      exact ih hrest hmem

lemma vfAmt_of_mem (acc : List (String × ℚ)) (e : String × ℚ)
    (hnd : (acc.map Prod.fst).Nodup) (he : e ∈ acc) : vfAmt acc e.1 = e.2 := by
  rw [vfAmt, filter_eq_single_of_nodup acc e hnd he]
  simp

lemma insertDescValue_perm (x : PiePoint) (l : List PiePoint) :
    List.Perm (insertDescValue x l) (x :: l) := by
  induction l with
  | nil => exact List.Perm.refl _
  | cons c cs ih =>
    rw [insertDescValue]
    split_ifs with h
    · exact (ih.cons c).trans (List.Perm.swap x c cs)
    · exact List.Perm.refl _

lemma sortDescValue_perm (l : List PiePoint) : List.Perm (sortDescValue l) l := by
  induction l with
  | nil => exact List.Perm.refl _
  | cons x xs ih => exact (insertDescValue_perm x (sortDescValue xs)).trans (ih.cons x)

lemma insertDescValue_pairwise (x : PiePoint) (l : List PiePoint)
    (h : l.Pairwise fun a b => b.value ≤ a.value) :
    (insertDescValue x l).Pairwise fun a b => b.value ≤ a.value := by
  induction l with
  | nil => simp [insertDescValue]
  | cons c cs ih =>
    rw [List.pairwise_cons] at h
    obtain ⟨hc, hcs⟩ := h
    rw [insertDescValue]
    split_ifs with hlt
    · rw [List.pairwise_cons]
      refine ⟨fun y hy => ?_, ih hcs⟩
      rcases List.mem_cons.mp ((insertDescValue_perm x cs).mem_iff.mp hy) with
        rfl | hmem
      · exact le_of_lt hlt
      · exact hc y hmem
    · rw [List.pairwise_cons]
      refine ⟨fun y hy => ?_, ?_⟩
      · rcases List.mem_cons.mp hy with rfl | hmem
        · exact not_lt.mp hlt
        · exact le_trans (hc y hmem) (not_lt.mp hlt)
      · rw [List.pairwise_cons]
        exact ⟨hc, hcs⟩

lemma sortDescValue_pairwise (l : List PiePoint) :
    (sortDescValue l).Pairwise fun a b => b.value ≤ a.value := by
  induction l with
  | nil => simp [sortDescValue]
  | cons x xs ih => exact insertDescValue_pairwise x _ ih

lemma filter_exp_cat (ts : List Tx) (c : String) :
    ((ts.filter fun t => t.type = TxType.Egreso).filter fun t => t.category = c) =
      ts.filter fun t => t.type = TxType.Egreso ∧ t.category = c := by
  induction ts with
  | nil => rfl
  | cons t ts ih =>
    by_cases h1 : t.type = TxType.Egreso <;> by_cases h2 : t.category = c <;>
      simp [h1, h2, ih]

/-- C7: the pie-chart transform considers only Expense-type transactions,
emits at most one entry per category (its names are duplicate-free) whose
value is that category's total Expense amount, orders entries descending by
value, and preserves the total: the values sum to the sum of all
Expense-type amounts of the input. -/
theorem groupByCategory_spec (ts : List Tx) :
    (pieData ts).Pairwise (fun a b => b.value ≤ a.value) ∧
    ((pieData ts).map PiePoint.name).Nodup ∧
    (∀ e ∈ pieData ts, e.value = specCategorySum ts e.name) ∧
    ((pieData ts).map PiePoint.value).sum = specExpenseTotal ts := by
  have hperm : List.Perm (pieData ts)
      ((groupedData ts).map fun p => ({ name := p.1, value := p.2 } : PiePoint)) :=
    sortDescValue_perm _
  refine ⟨sortDescValue_pairwise _, ?_, ?_, ?_⟩
  · have h1 : ((groupedData ts).map fun p =>
        ({ name := p.1, value := p.2 } : PiePoint)).map PiePoint.name =
        (groupedData ts).map Prod.fst := by
      rw [List.map_map]
      rfl
    have h2 := groupedData_keys_nodup ts
    rw [← h1] at h2
    exact ((hperm.map PiePoint.name).nodup_iff).mpr h2
  · intro e he
    rcases List.mem_map.mp (hperm.mem_iff.mp he) with ⟨p, hp, rfl⟩
    show p.2 = specCategorySum ts p.1
    have hv := vfAmt_of_mem (groupedData ts) p (groupedData_keys_nodup ts) hp
    rw [← hv, groupedData, foldl_addAmount_vf, vfAmt_nil, zero_add,
      specCategorySum, filter_exp_cat]
  · have hs := (hperm.map PiePoint.value).sum_eq
    rw [hs, List.map_map]
    have hcomp : (PiePoint.value ∘ fun p =>
        ({ name := p.1, value := p.2 } : PiePoint)) = Prod.snd := rfl
    rw [hcomp, groupedData, foldl_addAmount_sumSnd]
    simp [specExpenseTotal]

lemma sumAmounts_scrub (l : List Tx) :
    sumAmounts (l.map scrubDeleted) = sumAmounts l := by
  rw [sumAmounts, sumAmounts, List.foldl_map]
  rfl

lemma currentMonthData_scrub (ts : List Tx) (now : DateYM) :
    currentMonthData (ts.map scrubDeleted) now =
      (currentMonthData ts now).map scrubDeleted := by
  rw [currentMonthData, currentMonthData, List.filter_map]
  rfl

lemma totalIncomeOf_scrub (ts : List Tx) (now : DateYM) :
    totalIncomeOf (ts.map scrubDeleted) now = totalIncomeOf ts now := by
  rw [totalIncomeOf, totalIncomeOf, currentMonthData_scrub, List.filter_map,
    sumAmounts_scrub]
  rfl

lemma totalExpenseOf_scrub (ts : List Tx) (now : DateYM) :
    totalExpenseOf (ts.map scrubDeleted) now = totalExpenseOf ts now := by
  rw [totalExpenseOf, totalExpenseOf, currentMonthData_scrub, List.filter_map,
    sumAmounts_scrub]
  rfl

lemma savingsRatioRaw_scrub (ts : List Tx) (now : DateYM) :
    savingsRatioRaw (ts.map scrubDeleted) now = savingsRatioRaw ts now := by
  rw [savingsRatioRaw, savingsRatioRaw, totalIncomeOf_scrub, totalExpenseOf_scrub]

lemma debtToIncomeRaw_scrub (h : Option Health) (ts : List Tx) (now : DateYM) :
    debtToIncomeRaw h (ts.map scrubDeleted) now = debtToIncomeRaw h ts now := by
  cases h <;> simp only [debtToIncomeRaw, totalIncomeOf_scrub]

lemma monthKeysOf_scrub (ts : List Tx) :
    monthKeysOf (ts.map scrubDeleted) = monthKeysOf ts := by
  rw [monthKeysOf, monthKeysOf, List.map_map]
  rfl

lemma allExpenseSum_scrub (ts : List Tx) :
    allExpenseSum (ts.map scrubDeleted) = allExpenseSum ts := by
  rw [allExpenseSum, allExpenseSum, List.filter_map, sumAmounts_scrub]
  rfl

lemma averageMonthlyExpenseOf_scrub (ts : List Tx) :
    averageMonthlyExpenseOf (ts.map scrubDeleted) = averageMonthlyExpenseOf ts := by
  rw [averageMonthlyExpenseOf, averageMonthlyExpenseOf, allExpenseSum_scrub,
    monthKeysOf_scrub, List.length_map]

lemma emergencyFundMonthsRaw_scrub (h : Option Health) (ts : List Tx) :
    emergencyFundMonthsRaw h (ts.map scrubDeleted) = emergencyFundMonthsRaw h ts := by
  simp only [emergencyFundMonthsRaw, averageMonthlyExpenseOf_scrub]

lemma calculateMetrics_scrub (ts : List Tx) (h : Option Health)
    (p : Option Portfolio) (now : DateYM) :
    calculateMetrics (ts.map scrubDeleted) h p now = calculateMetrics ts h p now := by
  simp only [calculateMetrics, totalIncomeOf_scrub, totalExpenseOf_scrub,
    savingsRatioRaw_scrub, debtToIncomeRaw_scrub, emergencyFundMonthsRaw_scrub,
    averageMonthlyExpenseOf_scrub]

lemma groupedData_scrub (ts : List Tx) :
    groupedData (ts.map scrubDeleted) = groupedData ts := by
  rw [groupedData, groupedData, List.filter_map, List.foldl_map]
  rfl

lemma pieData_scrub (ts : List Tx) : pieData (ts.map scrubDeleted) = pieData ts := by
  rw [pieData, pieData, groupedData_scrub]

lemma bumpBucket_scrub (b : MonthBucket) (t : Tx) :
    bumpBucket b (scrubDeleted t) = bumpBucket b t := rfl

lemma scrub_date (t : Tx) : (scrubDeleted t).date = t.date := rfl

lemma addToMonth_scrub (acc : List MonthBucket) (t : Tx) :
    addToMonth acc (scrubDeleted t) = addToMonth acc t := by
  induction acc with
  | nil => rfl
  | cons b rest ih =>
    simp only [addToMonth, scrub_date, bumpBucket_scrub, ih]

lemma monthlyData_scrub (ts : List Tx) :
    monthlyData (ts.map scrubDeleted) = monthlyData ts := by
  rw [monthlyData, monthlyData, List.foldl_map]
  congr 1
  funext acc t
  exact addToMonth_scrub acc t

lemma groupByMonthData_scrub (ts : List Tx) :
    groupByMonthData (ts.map scrubDeleted) = groupByMonthData ts := by
  simp only [groupByMonthData, monthlyData_scrub]

/-- C10: the soft-delete flag is invisible to the metrics core — two
transaction lists that agree after forgetting their deleted flags (in
particular, one obtained from the other by flipping the flag on any
transactions) produce identical calculateMetrics output, identical pie-chart
data and identical monthly bar-chart data: no aggregation filters on the
flag handleDelete sets. -/
theorem deleted_flag_invisible (ts₁ ts₂ : List Tx) (h : Option Health)
    (p : Option Portfolio) (now : DateYM)
    (hsc : ts₁.map scrubDeleted = ts₂.map scrubDeleted) :
    calculateMetrics ts₁ h p now = calculateMetrics ts₂ h p now ∧
    pieData ts₁ = pieData ts₂ ∧
    groupByMonthData ts₁ = groupByMonthData ts₂ := by
  refine ⟨?_, ?_, ?_⟩
  · calc calculateMetrics ts₁ h p now
        = calculateMetrics (ts₁.map scrubDeleted) h p now :=
          (calculateMetrics_scrub ts₁ h p now).symm
      _ = calculateMetrics (ts₂.map scrubDeleted) h p now := by rw [hsc]
      _ = calculateMetrics ts₂ h p now := calculateMetrics_scrub ts₂ h p now
  · calc pieData ts₁ = pieData (ts₁.map scrubDeleted) := (pieData_scrub ts₁).symm
      _ = pieData (ts₂.map scrubDeleted) := by rw [hsc]
      _ = pieData ts₂ := pieData_scrub ts₂
  · calc groupByMonthData ts₁
        = groupByMonthData (ts₁.map scrubDeleted) := (groupByMonthData_scrub ts₁).symm
      _ = groupByMonthData (ts₂.map scrubDeleted) := by rw [hsc]
      _ = groupByMonthData ts₂ := groupByMonthData_scrub ts₂

theorem deleted_flag_invisible_witness :
    calculateMetrics [{ txExpense400 with deleted := true }] none none octNow =
      calculateMetrics [txExpense400] none none octNow ∧
    pieData [{ txExpense400 with deleted := true }] = pieData [txExpense400] ∧
    groupByMonthData [{ txExpense400 with deleted := true }] =
      groupByMonthData [txExpense400] :=
  deleted_flag_invisible [{ txExpense400 with deleted := true }] [txExpense400]
    none none octNow rfl

/-- C1 (the code evaluated at the failing input): two same-year transactions
arriving as February then January yield monthly buckets in that same
February-January order — the comparator parses a bucket label such as
"feb 2025" into the pair (0, 2025), because the month abbreviation carries no
digits, so it orders buckets by year only and same-year buckets keep
first-encounter order; the output is not chronologically ascending by
(year, month), contradicting both the claim and the source's own
"Ordenar por año y mes" comment. -/
theorem groupByMonth_not_month_sorted :
    (groupByMonthData [txFeb25, txJan25]).map (fun b => (b.year, b.month)) =
      [(2025, 1), (2025, 0)] := by
  decide

end FinanzasPro
